import Mathlib

/-!
Shallow embedding of the openfairdb core (business use cases over the
in-memory repository, and the infrastructure update pipeline), with
theorems settling the specification claims about it.

Sources embedded:
- src/src/business/usecase.rs (use-case functions, `MockRepo`, `Id` impls)
- src/src/infrastructure/flows/update_entry.rs (update pipeline)

Modelling conventions:
- `u64` fields (`created`, `version`) are modelled as `Nat`; the program
  only ever produces them by stamping a clock value or by `+ 1` starting
  from `0`, so the `2^64` wrap point is unreachable from program runs.
- `f64` fields (`lat`, `lng`) are modelled by their 64-bit pattern
  (`UInt64`): the embedded code never computes with coordinates, it only
  copies them, and bit-pattern equality is exactly "byte-for-byte equal".
- The nondeterministic effects `Uuid::new_v4()` and `UTC::now()` are
  threaded as explicit arguments (`fid` for a freshly drawn identifier,
  `now` for the clock reading).
- Mutation of a `&mut` repository argument is explicit state passing: a
  function mutating a repo returns the new repo next to its result.
-/

namespace Ofdb

/-- Bit pattern of an IEEE-754 `f64`; the embedded code only copies these
values, never computes with them. -/
abbrev F64 := UInt64

/-- Modelled from the spec: the `entities` crate defining `Predicate` is not
under src/. Per the spec it is "an enumerated relation kind; only
`IsTaggedAs` is active"; the inactive variant stands for the room the triple
model leaves for the future sub-class/equivalence/similarity relations
(usecase.rs keeps an explicit catch-all match arm for such variants). -/
inductive Predicate
  | IsTaggedAs
  | IsSimilarTo
deriving DecidableEq, Repr

/-- Modelled from the spec: the `entities` crate defining `Entry` is not
under src/; the field list is reconstructed from the record constructors in
usecase.rs (`request_entry`, `create_new_entry`, `update_entry`), which name
every field. -/
structure Entry where
  id          : String
  created     : Nat
  version     : Nat
  title       : String
  description : String
  lat         : F64
  lng         : F64
  street      : Option String
  zip         : Option String
  city        : Option String
  country     : Option String
  email       : Option String
  telephone   : Option String
  homepage    : Option String
  categories  : List String
  tags        : List String
  license     : Option String
deriving DecidableEq, Repr

/-- Modelled from the spec: the `entities` crate defining `Tag` is not under
src/; fields per spec §3 and the constructor in `create_new_tag`. -/
structure Tag where
  id      : String
  created : Nat
  version : Nat
  name    : String
deriving DecidableEq, Repr

/-- Modelled from the spec: the `entities` crate defining `SentenceTriple`
is not under src/; fields per spec §3 and the constructor in
`add_is_tagged_relation`. -/
structure SentenceTriple where
  subject   : String
  predicate : Predicate
  object    : String
deriving DecidableEq, Repr

/-- usecase.rs `NewTag`. -/
structure NewTag where
  name : String
deriving DecidableEq, Repr

/-- usecase.rs `UpdateEntry`: identifier, the version the record was read
at, and all editable attributes (no `created`, no `license`). -/
structure UpdateEntry where
  id          : String
  version     : Nat
  title       : String
  description : String
  lat         : F64
  lng         : F64
  street      : Option String
  zip         : Option String
  city        : Option String
  country     : Option String
  email       : Option String
  telephone   : Option String
  homepage    : Option String
  categories  : List String
  tags        : List String
deriving DecidableEq, Repr

/-- Modelled from the spec: `RepoError` lives in the missing
business/error.rs; its variants are those matched in usecase.rs tests and
listed in spec §7. -/
inductive RepoError
  | NotFound
  | AlreadyExists
  | InvalidVersion
deriving DecidableEq, Repr

/-- Modelled from the spec: `ParameterError` lives in the missing
business/error.rs; only the `Tag` variant is used by the embedded code. -/
inductive ParameterError
  | Tag
deriving DecidableEq, Repr

/-- Modelled from the spec: the business `Error` type of the missing
business/error.rs, wrapping parameter and repository errors. -/
inductive Error
  | Parameter (p : ParameterError)
  | Repo (r : RepoError)
deriving DecidableEq, Repr

/-- usecase.rs: `type Result<T> = result::Result<T,Error>`. -/
abbrev Result (T : Type) := Except Error T

/-- usecase.rs `trait Id { fn id(&self) -> &str }`. -/
class Id (α : Type) where
  id : α → String

instance : Id Entry := ⟨Entry.id⟩

instance : Id Tag := ⟨Tag.id⟩

/-- usecase.rs: `impl Id for SentenceTriple { fn id(&self) -> &str { "" } }`
— every triple exposes the empty string as its identifier. -/
instance : Id SentenceTriple := ⟨fun _ => ""⟩

/-- usecase.rs `MockRepo<T>`: the in-memory repository, a plain vector of
objects. -/
structure MockRepo (α : Type) where
  objects : List α
deriving DecidableEq, Repr

/-- `MockRepo::get`: first object whose `id()` equals the argument, else
`NotFound`. -/
def MockRepo.get [Id α] (r : MockRepo α) (i : String) : Except RepoError α :=
  match r.objects.find? (fun x => Id.id x == i) with
  | some x => .ok x
  | none => .error .NotFound

/-- `MockRepo::all`: clone of the whole object vector. -/
def MockRepo.all (r : MockRepo α) : Except RepoError (List α) :=
  .ok r.objects

/-- `MockRepo::create`: reject with `AlreadyExists` when any stored object
has the same `id()`, else push. Returns the result next to the new state. -/
def MockRepo.create [Id α] (r : MockRepo α) (e : α) :
    Except RepoError Unit × MockRepo α :=
  if r.objects.any (fun x => Id.id x == Id.id e) then
    (.error .AlreadyExists, r)
  else
    (.ok (), ⟨r.objects ++ [e]⟩)

/-- `MockRepo::update`: replace the object at the first position whose
`id()` matches, else `NotFound`. -/
def MockRepo.update [Id α] (r : MockRepo α) (e : α) :
    Except RepoError Unit × MockRepo α :=
  match r.objects.findIdx? (fun x => Id.id x == Id.id e) with
  | some pos => (.ok (), ⟨r.objects.set pos e⟩)
  | none => (.error .NotFound, r)

/-- usecase.rs `get_tags_for_entry_id`. Faithful to the source: the Rust
match pattern `SentenceTriple { subject : id, predicate :
Predicate::IsTaggedAs, object }` BINDS a fresh variable `id` (shadowing the
function parameter) instead of comparing against it, so every `IsTaggedAs`
triple matches regardless of its subject. The `rt` parameter is unused, as
in the source. -/
def get_tags_for_entry_id (rt : MockRepo Tag) (rs : MockRepo SentenceTriple)
    (i : String) : Result (List String) :=
  match rs.all with
  | .error e => .error (.Repo e)
  | .ok ts =>
      .ok (ts.filterMap (fun t =>
        match t with
        | { subject := _, predicate := .IsTaggedAs, object := o } => some o
        | _ => none))

/-- usecase.rs `request_entry`: fetch the entry, derive its tags, and
rebuild the record field by field. Faithful to the source: the rebuilt
record carries `version : e.version + 1` even though this is a read. -/
def request_entry (re : MockRepo Entry) (rt : MockRepo Tag)
    (rs : MockRepo SentenceTriple) (i : String) : Result Entry :=
  match re.get i with
  | .ok e =>
      match get_tags_for_entry_id rt rs i with
      | .error err => .error err
      | .ok tags =>
          .ok { id          := e.id
                created     := e.created
                version     := e.version + 1
                title       := e.title
                description := e.description
                lat         := e.lat
                lng         := e.lng
                street      := e.street
                zip         := e.zip
                city        := e.city
                country     := e.country
                email       := e.email
                telephone   := e.telephone
                homepage    := e.homepage
                categories  := e.categories
                tags        := tags
                license     := e.license }
  | .error e => .error (.Repo e)

/-- usecase.rs `create_new_tag`: build a tag with a freshly drawn identifier
(`fid` models `Uuid::new_v4()`), the clock reading (`now` models
`UTC::now().timestamp()`), version 0 and the requested name, then `create`
it in the tag repository, propagating a repository error. -/
def create_new_tag (rt : MockRepo Tag) (t : NewTag) (fid : String)
    (now : Nat) : Result String × MockRepo Tag :=
  let tg : Tag := { id := fid, created := now, version := 0, name := t.name }
  match rt.create tg with
  | (.ok _, rt') => (.ok tg.id, rt')
  | (.error e, rt') => (.error (.Repo e), rt')

/-- usecase.rs `find_or_create_tag_id_by_name`: scan all tags for an exact
name match; return its id, or create a new tag and return the new id. -/
def find_or_create_tag_id_by_name (rt : MockRepo Tag) (tag : String)
    (fid : String) (now : Nat) : Result String × MockRepo Tag :=
  match rt.all with
  | .error e => (.error (.Repo e), rt)
  | .ok ts =>
      match ts.find? (fun t => t.name == tag) with
      | some x => (.ok x.id, rt)
      | none => create_new_tag rt { name := tag } fid now

/-- usecase.rs `add_is_tagged_relation`: create the `IsTaggedAs` triple in
the triple repository. Faithful to the source: the `Result` returned by
`create` is discarded (the Rust call ignores the return value). -/
def add_is_tagged_relation (rs : MockRepo SentenceTriple) (entry_id : String)
    (tag_id : String) : MockRepo SentenceTriple :=
  (rs.create { subject := entry_id, predicate := .IsTaggedAs,
               object := tag_id }).2

/-- usecase.rs `add_tag_to_entry`: reject an empty tag name; resolve or
create the tag; if its id is already among the entry's derived tags, no-op
success, otherwise add the triple (whose creation result is discarded). -/
def add_tag_to_entry (re : MockRepo Entry) (rt : MockRepo Tag)
    (rs : MockRepo SentenceTriple) (tag : String) (entry_id : String)
    (fid : String) (now : Nat) :
    Result Unit × MockRepo Tag × MockRepo SentenceTriple :=
  if tag == "" then
    (.error (.Parameter .Tag), rt, rs)
  else
    let res := find_or_create_tag_id_by_name rt tag fid now
    let rt' := res.2
    match get_tags_for_entry_id rt' rs entry_id with
    | .error e => (.error e, rt', rs)
    | .ok tag_ids_of_entry =>
        match res.1 with
        | .ok tag_id =>
            match tag_ids_of_entry.find? (fun i => i == tag_id) with
            | some _ => (.ok (), rt', rs)
            | none => (.ok (), rt', add_is_tagged_relation rs entry_id tag_id)
        | .error e => (.error e, rt', rs)

/-- usecase.rs `get_associated_entry_ids_of_tags`: keep the triples whose
object is among the given tag ids, extract the subjects of the `IsTaggedAs`
ones, then `Vec::dedup`. Faithful to the source: `dedup` removes only
CONSECUTIVE duplicates, which is `List.destutter` with the
"differs from the previous kept element" relation. -/
def get_associated_entry_ids_of_tags (rs : MockRepo SentenceTriple)
    (tag_ids : List String) : Result (List String) :=
  match rs.all with
  | .error e => .error (.Repo e)
  | .ok ts =>
      let ids := (ts.filter
          (fun triple => tag_ids.any (fun tag_id => tag_id == triple.object))
        ).filterMap (fun triple =>
          match triple with
          | { subject := s, predicate := .IsTaggedAs, object := _ } => some s
          | _ => none)
      .ok (ids.destutter (· ≠ ·))

/-- usecase.rs `update_entry`: fetch the stored entry; reject with
`InvalidVersion` when the carried version differs; otherwise rebuild the
record with a fresh timestamp, version + 1, editable fields from the
request and `license` from the old record, and store it via `update`. -/
def update_entry (r : MockRepo Entry) (e : UpdateEntry) (now : Nat) :
    Result Unit × MockRepo Entry :=
  match r.get e.id with
  | .error err => (.error (.Repo err), r)
  | .ok old =>
      if old.version != e.version then
        (.error (.Repo .InvalidVersion), r)
      else
        let e' : Entry :=
          { id          := e.id
            created     := now
            version     := e.version + 1
            title       := e.title
            description := e.description
            lat         := e.lat
            lng         := e.lng
            street      := e.street
            zip         := e.zip
            city        := e.city
            country     := e.country
            email       := e.email
            telephone   := e.telephone
            homepage    := e.homepage
            categories  := e.categories
            tags        := e.tags
            license     := old.license }
        match r.update e' with
        | (.ok _, r') => (.ok (), r')
        | (.error err, r') => (.error (.Repo err), r')

namespace Flows

/-- infrastructure/flows/update_entry.rs, phase 1 in isolation: the
transaction block of `update_entry`. `exclusive` models acquiring the
exclusive connection; `prepare` models `usecases::prepare_updated_place_rev`
and `store` models `usecases::store_updated_place_rev` (both in code not
under src/, passed as parameters). A `store` failure is mapped inside the
transaction to `RollbackTransaction`, which the outer `map_err` converts via
`RepoError::from` into `rollback_repo_err` because `prepare_err` is `none`;
a `prepare` failure is stashed in `prepare_err` and surfaced verbatim. -/
def phase1_update_entry {S P R E : Type} (exclusive : Except E Unit)
    (prepare : Except E S) (store : S → Except E (P × R))
    (rollback_repo_err : E) : Except E (P × R) :=
  match exclusive with
  | .error e => .error e
  | .ok _ =>
      match prepare with
      | .error e => .error e
      | .ok storable =>
          match store storable with
          | .error _ => .error rollback_repo_err
          | .ok pr => .ok pr

/-- infrastructure/flows/update_entry.rs `update_entry`: run phase 1
(transactional prepare-and-store); after it succeeds, run
`index_entry(..).and_then(flush)` and the notifier, discarding (logging
only) whatever they return, and return `Ok(place)`. -/
def update_entry {S P R E : Type} (exclusive : Except E Unit)
    (prepare : Except E S) (store : S → Except E (P × R))
    (rollback_repo_err : E) (index : P → R → Except E Unit)
    (flush : Except E Unit) (notify : P → Except E Unit) : Except E P :=
  match phase1_update_entry exclusive prepare store rollback_repo_err with
  | .error e => .error e
  | .ok (place, ratings) =>
      let _reindexed : Except E Unit :=
        (index place ratings).bind (fun _ => flush)
      let _notified : Except E Unit := notify place
      .ok place

end Flows

/-! Concrete fixtures used by witnesses and counterexamples. -/

/-- A stored entry with version 0, mirroring the test fixtures of
usecase.rs. -/
def exEntry : Entry :=
  { id := "E1", created := 5, version := 0, title := "foo",
    description := "bar", lat := 0, lng := 0, street := none, zip := none,
    city := none, country := none, email := none, telephone := none,
    homepage := none, categories := [], tags := [],
    license := some "CC0-1.0" }

/-- An update request for `exEntry` carrying a stale version. -/
def exStaleReq : UpdateEntry :=
  { id := "E1", version := 1, title := "foo", description := "bar",
    lat := 0, lng := 0, street := some "street", zip := none, city := none,
    country := none, email := none, telephone := none, homepage := none,
    categories := [], tags := [] }

/-- An update request for `exEntry` carrying the matching version 0. -/
def exFreshReq : UpdateEntry := { exStaleReq with version := 0 }

/-- A stored tag named "foo". -/
def exTag : Tag := { id := "T1", created := 0, version := 0, name := "foo" }

/-- A triple tagging the other entry `E2` with the other tag `T2`. -/
def exTriple : SentenceTriple :=
  { subject := "E2", predicate := .IsTaggedAs, object := "T2" }

/-! Helper lemmas about the embedded repository operations. -/

@[simp]
theorem id_entry (e : Entry) : Id.id e = e.id := rfl

@[simp]
theorem id_tag (t : Tag) : Id.id t = t.id := rfl

@[simp]
theorem id_triple (s : SentenceTriple) : Id.id s = "" := rfl

/-- Replacing, at the index found by `findIdx?`, an element that itself
satisfies the predicate keeps it the first match of `find?`. -/
theorem findIdx?_set_find? {α : Type} (p : α → Bool) (b : α)
    (hb : p b = true) :
    ∀ (l : List α) (a : α), l.find? p = some a →
      ∃ i, l.findIdx? p = some i ∧ (l.set i b).find? p = some b := by
  intro l
  induction l with
  | nil => intro a h; simp [List.find?] at h
  | cons x xs ih =>
      intro a h
      by_cases hx : p x
      · refine ⟨0, ?_, ?_⟩
        · simp [List.findIdx?_cons, hx]
        · simpa [List.set] using List.find?_cons_of_pos xs hb
      · have h' : xs.find? p = some a := by
          simpa [List.find?_cons_of_neg xs hx] using h
        obtain ⟨i, hi, hf⟩ := ih a h'
        refine ⟨i + 1, ?_, ?_⟩
        · simp [List.findIdx?_cons, hx, List.findIdx?_succ, hi]
        · simpa [List.set, List.find?_cons_of_neg _ hx] using hf

/-! Claim theorems. -/

/-- C1: the claim says `get_tags_for_entry_id` returns exactly the objects
of the `IsTaggedAs` triples whose subject equals the given entry id. The
code instead matches with the pattern `subject : id`, which binds a fresh
variable, so the subject is never compared: querying the tags of "E1"
against a store whose only triple has subject "E2" returns that triple's
object instead of the empty list. This evaluates the embedded code at the
failing input. -/
theorem get_tags_for_entry_id_ignores_subject :
    get_tags_for_entry_id ⟨[]⟩
        ⟨[{ subject := "E2", predicate := .IsTaggedAs, object := "T1" }]⟩
        "E1" = .ok ["T1"] ∧ "E2" ≠ "E1" :=
  ⟨rfl, by decide⟩

/-- C4: the caller-visible result of the update pipeline is exactly the
phase-1 outcome (the committed place): whatever the reindexing step
(`index` then `flush`) and the notification step return, they are discarded
and never alter the returned result. -/
theorem flows_update_entry_result_is_phase1 {S P R E : Type}
    (exclusive : Except E Unit) (prepare : Except E S)
    (store : S → Except E (P × R)) (rollback_repo_err : E)
    (index : P → R → Except E Unit) (flush : Except E Unit)
    (notify : P → Except E Unit) :
    Flows.update_entry exclusive prepare store rollback_repo_err index
        flush notify =
      (Flows.phase1_update_entry exclusive prepare store
          rollback_repo_err).map Prod.fst := by
  unfold Flows.update_entry
  cases Flows.phase1_update_entry exclusive prepare store rollback_repo_err
  · rfl
  · rfl

/-- C5: the claim says a read via `request_entry` returns the stored
version unchanged. The code rebuilds the record with `version : e.version +
1`, so reading the stored entry `exEntry` (version 0) yields a record with
version 1. This evaluates the embedded code at the failing input. -/
theorem request_entry_returns_incremented_version :
    exEntry.version = 0 ∧
    request_entry ⟨[exEntry]⟩ ⟨[]⟩ ⟨[]⟩ "E1" =
      .ok { exEntry with version := 1 } :=
  ⟨rfl, rfl⟩

/-- C7: for every repository state, associating the empty string as tag
name fails with the `Tag` parameter error and performs no mutation: the tag
and triple repositories are returned unchanged. -/
theorem add_tag_to_entry_empty_name (re : MockRepo Entry) (rt : MockRepo Tag)
    (rs : MockRepo SentenceTriple) (entry_id fid : String) (now : Nat) :
    add_tag_to_entry re rt rs "" entry_id fid now =
      (.error (.Parameter .Tag), rt, rs) :=
  rfl

/-- C8 counterexample: the claim says the subjects gathered by
`get_associated_entry_ids_of_tags` contain no duplicate even when the same
subject occurs in non-adjacent matching triples. The code uses
`Vec::dedup`, which removes only consecutive duplicates: with the matching
triples subject-ordered E1, E2, E1 the result still contains "E1" twice. -/
theorem get_associated_entry_ids_duplicate :
    get_associated_entry_ids_of_tags
        ⟨[{ subject := "E1", predicate := .IsTaggedAs, object := "T" },
          { subject := "E2", predicate := .IsTaggedAs, object := "T" },
          { subject := "E1", predicate := .IsTaggedAs, object := "T" }]⟩
        ["T"] = .ok ["E1", "E2", "E1"] ∧
    ¬ (["E1", "E2", "E1"] : List String).Nodup :=
  ⟨rfl, by decide⟩

/-- C8 amended: the subject list returned by
`get_associated_entry_ids_of_tags` contains no two ADJACENT equal entry
identifiers (consecutive duplicates are removed); duplicates may remain
when the same subject occurs in non-adjacent matching triples. -/
theorem get_associated_entry_ids_chain_ne (rs : MockRepo SentenceTriple)
    (tag_ids : List String) (l : List String)
    (h : get_associated_entry_ids_of_tags rs tag_ids = .ok l) :
    l.Chain' (· ≠ ·) := by
  unfold get_associated_entry_ids_of_tags MockRepo.all at h
  simp only [Except.ok.injEq] at h
  exact h ▸ List.destutter_is_chain' (· ≠ ·) _

/-- C8 amended, witness: the amended theorem applied to a concrete store
with one matching triple. -/
theorem get_associated_entry_ids_chain_ne_witness :
    (["E1"] : List String).Chain' (· ≠ ·) :=
  get_associated_entry_ids_chain_ne
    ⟨[{ subject := "E1", predicate := .IsTaggedAs, object := "T" }]⟩
    ["T"] ["E1"] rfl

/-- C9: under the in-memory repository every `SentenceTriple` exposes `""`
as its identifier and `create` rejects a duplicate identifier, so once any
triple is stored every further `create` — whatever triple it is given —
fails with `AlreadyExists` and leaves the store unchanged. -/
theorem triple_create_fails_once_nonempty (rs : MockRepo SentenceTriple)
    (t t' : SentenceTriple) (h : t ∈ rs.objects) :
    rs.create t' = (.error .AlreadyExists, rs) := by
  unfold MockRepo.create
  have hany : rs.objects.any (fun x => Id.id x == Id.id t') = true :=
    List.any_eq_true.mpr ⟨t, h, rfl⟩
  simp [hany]
  exact ⟨t, h⟩

/-- C9 witness: with `exTriple` stored, creating a completely different
triple fails with `AlreadyExists` and changes nothing. -/
theorem triple_create_fails_once_nonempty_witness :
    (MockRepo.mk [exTriple]).create
        { subject := "E3", predicate := .IsTaggedAs, object := "T9" } =
      (.error .AlreadyExists, ⟨[exTriple]⟩) :=
  triple_create_fails_once_nonempty ⟨[exTriple]⟩ exTriple
    { subject := "E3", predicate := .IsTaggedAs, object := "T9" }
    (by simp)

/-- C2: for every stored entry, an update request carrying a version
different from the stored one fails with the `InvalidVersion` repository
error and the repository state is returned completely unchanged: no write
is performed. -/
theorem update_entry_version_conflict (r : MockRepo Entry) (e : UpdateEntry)
    (now : Nat) (old : Entry) (hget : r.get e.id = .ok old)
    (hv : old.version ≠ e.version) :
    update_entry r e now = (.error (.Repo .InvalidVersion), r) := by
  unfold update_entry
  rw [hget]
  simp [hv]

/-- C2 witness: the conflict theorem applied to the stored `exEntry`
(version 0) and the stale request `exStaleReq` (version 1). -/
theorem update_entry_version_conflict_witness :
    update_entry ⟨[exEntry]⟩ exStaleReq 9 =
      (.error (.Repo .InvalidVersion), ⟨[exEntry]⟩) :=
  update_entry_version_conflict ⟨[exEntry]⟩ exStaleReq 9 exEntry rfl
    (by decide)

/-- C3: for every stored entry and every update request carrying the
matching version, `update_entry` succeeds and the newly stored record has
version old + 1, the fresh timestamp `now`, identifier and license from the
prior stored record, and every editable field from the request. -/
theorem update_entry_success (r : MockRepo Entry) (e : UpdateEntry)
    (now : Nat) (old : Entry) (hget : r.get e.id = .ok old)
    (hv : old.version = e.version) :
    (update_entry r e now).1 = .ok () ∧
    (update_entry r e now).2.get e.id =
      .ok { id := old.id, created := now, version := old.version + 1,
            title := e.title, description := e.description, lat := e.lat,
            lng := e.lng, street := e.street, zip := e.zip, city := e.city,
            country := e.country, email := e.email,
            telephone := e.telephone, homepage := e.homepage,
            categories := e.categories, tags := e.tags,
            license := old.license } := by
  have hfind : r.objects.find? (fun x => Id.id x == e.id) = some old := by
    have h2 := hget
    unfold MockRepo.get at h2
    revert h2
    cases hf : r.objects.find? (fun x => Id.id x == e.id) with
    | some x =>
        intro h2
        injection h2 with h3
        rw [h3]
    | none => intro h2; exact Except.noConfusion h2
  have hid : old.id = e.id := by
    have h1 := List.find?_some hfind
    simpa using h1
  obtain ⟨i, hIdx, hSet⟩ :=
    findIdx?_set_find? (fun x => Id.id x == e.id)
      ({ id := e.id, created := now, version := e.version + 1,
         title := e.title, description := e.description, lat := e.lat,
         lng := e.lng, street := e.street, zip := e.zip, city := e.city,
         country := e.country, email := e.email, telephone := e.telephone,
         homepage := e.homepage, categories := e.categories, tags := e.tags,
         license := old.license } : Entry)
      (by simp) r.objects old hfind
  simp only [id_entry] at hIdx hSet
  have hrun : update_entry r e now =
      (.ok (), ⟨r.objects.set i
        { id := e.id, created := now, version := e.version + 1,
          title := e.title, description := e.description, lat := e.lat,
          lng := e.lng, street := e.street, zip := e.zip, city := e.city,
          country := e.country, email := e.email, telephone := e.telephone,
          homepage := e.homepage, categories := e.categories, tags := e.tags,
          license := old.license }⟩) := by
    unfold update_entry
    rw [hget]
    simp only [hv, bne_self_eq_false, Bool.false_eq_true, if_false,
      MockRepo.update]
    simp only [id_entry]
    rw [hIdx]
  refine ⟨by rw [hrun], ?_⟩
  rw [hrun]
  simp only [MockRepo.get, id_entry]
  rw [hSet]
  simp [hid, hv]

/-- C3 witness: the success theorem applied to the stored `exEntry`
(version 0) and the matching request `exFreshReq` (version 0) at clock 9. -/
theorem update_entry_success_witness :
    (update_entry ⟨[exEntry]⟩ exFreshReq 9).1 = .ok () ∧
    (update_entry ⟨[exEntry]⟩ exFreshReq 9).2.get exFreshReq.id =
      .ok { id := exEntry.id, created := 9, version := exEntry.version + 1,
            title := exFreshReq.title, description := exFreshReq.description,
            lat := exFreshReq.lat, lng := exFreshReq.lng,
            street := exFreshReq.street, zip := exFreshReq.zip,
            city := exFreshReq.city, country := exFreshReq.country,
            email := exFreshReq.email, telephone := exFreshReq.telephone,
            homepage := exFreshReq.homepage,
            categories := exFreshReq.categories, tags := exFreshReq.tags,
            license := exEntry.license } :=
  update_entry_success ⟨[exEntry]⟩ exFreshReq 9 exEntry rfl rfl


/-- C10: `add_is_tagged_relation` discards the result of the triple
repository's `create`, so in every state where creating the triple fails
(here: any nonempty triple store, by the shared-empty-identifier clash) an
`add_tag_to_entry` for a tag not yet among the entry's derived tags still
returns `Ok(())` while the triple store is left without the new triple —
indistinguishable, for the caller, from a successful association. -/
theorem add_tag_to_entry_silent_create_failure (re : MockRepo Entry)
    (rt : MockRepo Tag) (rs : MockRepo SentenceTriple)
    (tag entry_id fid : String) (now : Nat) (tg : Tag)
    (htag : tag ≠ "")
    (hfind : rt.objects.find? (fun t => t.name == tag) = some tg)
    (hnot : ∀ tr ∈ rs.objects, tr.predicate = .IsTaggedAs →
      tr.object ≠ tg.id)
    (hne : rs.objects ≠ []) :
    add_tag_to_entry re rt rs tag entry_id fid now = (.ok (), rt, rs) := by
  have hbeq : (tag == "") = false := beq_eq_false_iff_ne.mpr htag
  have hnone : (rs.objects.filterMap (fun t =>
      match t with
      | { subject := _, predicate := .IsTaggedAs, object := o } => some o
      | _ => none)).find? (fun i => i == tg.id) = none := by
    apply List.find?_eq_none.mpr
    intro x hx
    obtain ⟨tr, htr, hmap⟩ := List.mem_filterMap.mp hx
    obtain ⟨s, p, o⟩ := tr
    cases p with
    | IsTaggedAs =>
        injection hmap with h4
        simp only [beq_iff_eq]
        rw [← h4]
        exact hnot ⟨s, .IsTaggedAs, o⟩ htr rfl
    | IsSimilarTo => exact Option.noConfusion hmap
  obtain ⟨x0, hx0⟩ := List.exists_mem_of_ne_nil rs.objects hne
  have hany : rs.objects.any (fun x =>
      Id.id x == Id.id (⟨entry_id, .IsTaggedAs, tg.id⟩ : SentenceTriple)) =
      true :=
    List.any_eq_true.mpr ⟨x0, hx0, by simp⟩
  simp only [add_tag_to_entry, hbeq, Bool.false_eq_true, if_false,
    find_or_create_tag_id_by_name, MockRepo.all, hfind,
    get_tags_for_entry_id, hnone, add_is_tagged_relation, MockRepo.create,
    hany, if_true]

/-- C10 witness: with the tag "foo" stored, a foreign triple occupying the
triple store and the tag not yet associated to "E1", the call reports
success yet stores nothing. -/
theorem add_tag_to_entry_silent_create_failure_witness :
    add_tag_to_entry ⟨[]⟩ ⟨[exTag]⟩ ⟨[exTriple]⟩ "foo" "E1" "F9" 9 =
      (.ok (), ⟨[exTag]⟩, ⟨[exTriple]⟩) :=
  add_tag_to_entry_silent_create_failure ⟨[]⟩ ⟨[exTag]⟩ ⟨[exTriple]⟩
    "foo" "E1" "F9" 9 exTag (by decide) rfl (by decide) (by decide)

/-- C6: starting from an empty triple store, associating the same tag name
with the same entry id twice succeeds both times, leaves exactly one
`IsTaggedAs` triple with that subject and the resolved tag id, and the
second call is a no-op success: it returns both repositories exactly as the
first call left them. -/
theorem add_tag_to_entry_twice_idempotent (re : MockRepo Entry)
    (rt : MockRepo Tag) (tag entry_id fid1 fid2 : String) (now1 now2 : Nat)
    (htag : tag ≠ "")
    (hfresh : ∀ t ∈ rt.objects, t.id ≠ fid1) :
    ∃ tag_id,
      (add_tag_to_entry re rt ⟨[]⟩ tag entry_id fid1 now1).1 = .ok () ∧
      (add_tag_to_entry re rt ⟨[]⟩ tag entry_id fid1 now1).2.2.objects =
        [⟨entry_id, .IsTaggedAs, tag_id⟩] ∧
      add_tag_to_entry re
          (add_tag_to_entry re rt ⟨[]⟩ tag entry_id fid1 now1).2.1
          (add_tag_to_entry re rt ⟨[]⟩ tag entry_id fid1 now1).2.2
          tag entry_id fid2 now2 =
        (.ok (),
          (add_tag_to_entry re rt ⟨[]⟩ tag entry_id fid1 now1).2.1,
          (add_tag_to_entry re rt ⟨[]⟩ tag entry_id fid1 now1).2.2) := by
  have hbeq : (tag == "") = false := beq_eq_false_iff_ne.mpr htag
  cases hf : rt.objects.find? (fun t => t.name == tag) with
  | some tg =>
      have h1 : add_tag_to_entry re rt ⟨[]⟩ tag entry_id fid1 now1 =
          (.ok (), rt, ⟨[⟨entry_id, .IsTaggedAs, tg.id⟩]⟩) := by
        simp only [add_tag_to_entry, hbeq, Bool.false_eq_true, if_false,
          find_or_create_tag_id_by_name, MockRepo.all, hf,
          get_tags_for_entry_id, List.filterMap_nil, List.find?_nil,
          add_is_tagged_relation, MockRepo.create, List.any_nil,
          List.nil_append]
      have h2 : add_tag_to_entry re rt
          ⟨[⟨entry_id, .IsTaggedAs, tg.id⟩]⟩ tag entry_id fid2 now2 =
          (.ok (), rt, ⟨[⟨entry_id, .IsTaggedAs, tg.id⟩]⟩) := by
        simp only [add_tag_to_entry, hbeq, Bool.false_eq_true, if_false,
          find_or_create_tag_id_by_name, MockRepo.all, hf,
          get_tags_for_entry_id, List.filterMap_cons, List.filterMap_nil,
          List.find?_cons, beq_self_eq_true]
      exact ⟨tg.id, by rw [h1], by rw [h1], by rw [h1]; exact h2⟩
  | none =>
      have hanyt : rt.objects.any (fun x =>
          Id.id x == Id.id (⟨fid1, now1, 0, tag⟩ : Tag)) = false := by
        apply List.any_eq_false.mpr
        intro x hx
        simp only [id_tag, beq_iff_eq]
        exact hfresh x hx
      have h1 : add_tag_to_entry re rt ⟨[]⟩ tag entry_id fid1 now1 =
          (.ok (), ⟨rt.objects ++ [⟨fid1, now1, 0, tag⟩]⟩,
           ⟨[⟨entry_id, .IsTaggedAs, fid1⟩]⟩) := by
        simp only [add_tag_to_entry, hbeq, Bool.false_eq_true, if_false,
          find_or_create_tag_id_by_name, MockRepo.all, hf, create_new_tag,
          MockRepo.create, hanyt, get_tags_for_entry_id,
          List.filterMap_nil, List.find?_nil, add_is_tagged_relation,
          List.any_nil, List.nil_append]
      have hfind2 : (rt.objects ++ [(⟨fid1, now1, 0, tag⟩ : Tag)]).find?
            (fun t => t.name == tag) =
          some (⟨fid1, now1, 0, tag⟩ : Tag) := by
        rw [List.find?_append, hf]
        simp [List.find?_cons]
      have h2 : add_tag_to_entry re
          ⟨rt.objects ++ [⟨fid1, now1, 0, tag⟩]⟩
          ⟨[⟨entry_id, .IsTaggedAs, fid1⟩]⟩ tag entry_id fid2 now2 =
          (.ok (), ⟨rt.objects ++ [⟨fid1, now1, 0, tag⟩]⟩,
           ⟨[⟨entry_id, .IsTaggedAs, fid1⟩]⟩) := by
        simp only [add_tag_to_entry, hbeq, Bool.false_eq_true, if_false,
          find_or_create_tag_id_by_name, MockRepo.all, hfind2,
          get_tags_for_entry_id, List.filterMap_cons, List.filterMap_nil,
          List.find?_cons, beq_self_eq_true]
      exact ⟨fid1, by rw [h1], by rw [h1], by rw [h1]; exact h2⟩

/-- C6 witness: two associations of "coffee" with "E1" starting from empty
repositories leave exactly the one triple and the second call changes
nothing. -/
theorem add_tag_to_entry_twice_idempotent_witness :
    ∃ tag_id,
      (add_tag_to_entry ⟨[exEntry]⟩ ⟨[]⟩ ⟨[]⟩ "coffee" "E1" "F1" 7).1 =
        .ok () ∧
      (add_tag_to_entry ⟨[exEntry]⟩ ⟨[]⟩ ⟨[]⟩ "coffee" "E1" "F1" 7).2.2.objects
        = [⟨"E1", .IsTaggedAs, tag_id⟩] ∧
      add_tag_to_entry ⟨[exEntry]⟩
          (add_tag_to_entry ⟨[exEntry]⟩ ⟨[]⟩ ⟨[]⟩ "coffee" "E1" "F1" 7).2.1
          (add_tag_to_entry ⟨[exEntry]⟩ ⟨[]⟩ ⟨[]⟩ "coffee" "E1" "F1" 7).2.2
          "coffee" "E1" "F2" 8 =
        (.ok (),
          (add_tag_to_entry ⟨[exEntry]⟩ ⟨[]⟩ ⟨[]⟩ "coffee" "E1" "F1" 7).2.1,
          (add_tag_to_entry ⟨[exEntry]⟩ ⟨[]⟩ ⟨[]⟩ "coffee" "E1" "F1" 7).2.2) :=
  add_tag_to_entry_twice_idempotent ⟨[exEntry]⟩ ⟨[]⟩ "coffee" "E1" "F1" "F2"
    7 8 (by decide) (by simp)

end Ofdb
